import Mathlib

/-!
Verification of the newsletter_agent curation-and-summarization pipeline.

Shallow embedding of:
- `src/entities/news_entity.ts` (`News`)
- `src/use-cases/generateSummary.ts` (`GenerateSummaryUseCase`)
- `src/use-cases/curateNews.ts`, enriched variant with summary generation
  (`CurateNewsUseCase.execute`, `CurateNewsUseCase.evaluateNews`)

Modelling choices:
- JavaScript numbers (the `relevanceScore` and the configured threshold) are
  idealised as rationals `ℚ`; every value occurring in the verified scenarios
  (0.5, 0.7, 0.8, 0.9) is an exact decimal, so comparisons and template-string
  rendering agree with the JavaScript behaviour on those inputs.
- The asynchronous LLM capability (`LlmRepository.generateContent`) is modelled
  as an oracle `Llm : Nat → Except String String` giving the response (or the
  thrown error) of the i-th call, together with an explicit call counter that
  every effectful function threads; the number of calls a computation makes is
  the difference between the outgoing and incoming counter.
- `try`/`catch` around a capability call becomes a `match` on the oracle's
  `Except` answer; all embedded functions are total, which reflects that the
  TypeScript core catches every per-item exception internally and never
  propagates one.
- Strings are Lean strings; JavaScript `s.trim()` and `s.substring(0, n)` are
  embedded as the character-list operations `jsTrim` and `jsSubstring`
  (code-point idealisation of UTF-16 units; all scenario data is ASCII, and
  the JavaScript whitespace set is idealised as `Char.isWhitespace`).
  `s.substring(0, maxLength - 3)` at `maxLength < 3` clamps the negative end
  index to `0` in JavaScript, which truncated `Nat` subtraction reproduces.
- `Date.now()`-derived `processingTime` is wall-clock time and is omitted from
  the embedded metadata; the remaining metadata fields are embedded as written.
-/

set_option maxRecDepth 40000

/-- The `News` entity (`news_entity.ts`): `summary` is the optional field. -/
structure News where
  title : String
  content : String
  source : String
  categories : List String
  summary : Option String
  relevanceScore : ℚ
  language : String
  deriving Repr, DecidableEq

/-- Left-pad a digit string with zeros up to length `e`. -/
def padZeros (e : Nat) (s : String) : String :=
  String.mk (List.replicate (e - s.length) '0') ++ s

/-- Rendering of an exact-decimal rational the way a JavaScript template
string renders the corresponding number (`0.5` ↦ `"0.5"`, `1` ↦ `"1"`).
Rationals that are not exact decimals cannot arise from the scenario inputs;
for totality they fall back to a fraction rendering. -/
def fmtScore (q : ℚ) : String :=
  let sign := if q.num < 0 then "-" else ""
  let n := q.num.natAbs
  let d := q.den
  if d = 1 then
    sign ++ toString n
  else
    match (List.range 20).find? (fun k => d ∣ 10 ^ (k + 1)) with
    | some k =>
        let e := k + 1
        let scaled : Nat := n * (10 ^ e / d)
        sign ++ toString (scaled / 10 ^ e) ++ "." ++
          padZeros e (toString (scaled % 10 ^ e))
    | none => sign ++ toString n ++ "/" ++ toString d

/-- JavaScript `s.trim()`: strip leading and trailing whitespace. -/
def jsTrim (s : String) : String :=
  ⟨((s.data.dropWhile fun c => c.isWhitespace).reverse.dropWhile
      fun c => c.isWhitespace).reverse⟩

/-- JavaScript `s.substring(0, n)`: the first `n` characters. -/
def jsSubstring (s : String) (n : Nat) : String :=
  ⟨s.data.take n⟩

/-- `CurateNewsUseCase.evaluateNews`: accumulates the rejection reasons, in
source order (score check first, then language check), without short-circuit.
`threshold` embeds `env.RELEVANCE_SCORE_THRESHOLD`. -/
def evaluateNews (threshold : ℚ) (news : News) : List String :=
  (if news.relevanceScore < threshold then
    ["Score insuficiente (" ++ fmtScore news.relevanceScore ++ " < " ++
      fmtScore threshold ++ ")"]
  else []) ++
  (if news.language ≠ "ptBR" ∧ news.language ≠ "EN" then
    ["Idioma não suportado (" ++ news.language ++ ")"]
  else [])

/-- The LLM oracle: the answer (`.ok` response text or `.error` thrown
message) of the i-th `generateContent` call. -/
abbrev Llm := Nat → Except String String

/-- Metadata block of `GenerateSummaryResult` (without the wall-clock
`processingTime`). -/
structure SummaryMetadata where
  originalLength : Nat
  summaryLength : Nat
  compressionRatio : ℚ
  deriving Repr, DecidableEq

/-- `GenerateSummaryResult` from `generateSummary.ts`. -/
structure GenerateSummaryResult where
  summary : String
  originalNews : News
  success : Bool
  error : Option String
  metadata : Option SummaryMetadata
  deriving Repr, DecidableEq

/-- `GenerateSummaryUseCase.createResult`. -/
def createResult (news : News) (summary : String) (success : Bool) :
    GenerateSummaryResult :=
  let originalLength := news.content.length
  let summaryLength := summary.length
  { summary := summary
    originalNews := news
    success := success
    error := none
    metadata := some
      { originalLength := originalLength
        summaryLength := summaryLength
        compressionRatio :=
          if originalLength > 0 then (summaryLength : ℚ) / originalLength
          else 0 } }

/-- `GenerateSummaryUseCase.generateShorterSummary`: one corrective LLM call;
if that call throws, it is caught internally and the first oversized summary
is hard-truncated to `maxLength - 3` characters plus an ellipsis. Returns the
produced string and the next call index. -/
def generateShorterSummary (maxLength : Nat) (originalSummary : String)
    (llm : Llm) (k : Nat) : String × Nat :=
  match llm k with
  | .ok s => (jsTrim s, k + 1)
  | .error _ => (jsSubstring originalSummary (maxLength - 3) ++ "...", k + 1)

/-- `GenerateSummaryUseCase.execute`: one generation call; on a thrown error,
a failure result with empty summary and zeroed summary metadata; otherwise
trim, and if the trimmed text exceeds `maxLength` issue exactly one corrective
call and fall back to hard truncation of the first trimmed output.
`maxLength` embeds `env.SUMMARY_MAX_LENGTH`. -/
def GenerateSummaryUseCase.execute (maxLength : Nat) (news : News)
    (llm : Llm) (k : Nat) : GenerateSummaryResult × Nat :=
  match llm k with
  | .error msg =>
      ({ summary := ""
         originalNews := news
         success := false
         error := some msg
         metadata := some
           { originalLength := news.content.length
             summaryLength := 0
             compressionRatio := 0 } }, k + 1)
  | .ok raw =>
      let trimmed := jsTrim raw
      if trimmed.length > maxLength then
        let shorter := generateShorterSummary maxLength trimmed llm (k + 1)
        let finalSummary :=
          if shorter.1.length ≤ maxLength then shorter.1
          else jsSubstring trimmed (maxLength - 3) ++ "..."
        (createResult news finalSummary true, shorter.2)
      else
        (createResult news trimmed true, k + 1)

/-- `RejectedNews` from `curateNews.ts`. -/
structure RejectedNews where
  news : News
  reasons : List String
  deriving Repr, DecidableEq

/-- `CurationResult` from `curateNews.ts`. -/
structure CurationResult where
  approvedNews : List News
  rejectedNews : List RejectedNews
  totalProcessed : Nat
  totalApproved : Nat
  totalRejected : Nat
  deriving Repr, DecidableEq

/-- The approved branch of `CurateNewsUseCase.execute`'s loop body: when the
item's content exceeds 300 characters, one summarization attempt whose
successful summary replaces `content` and whose failure leaves the item
untouched (`summaryUseCase.execute` catches internally, so the loop's own
`catch` branch is dead code); otherwise the item passes through with no LLM
call. -/
def processOne (maxLength : Nat) (news : News) (llm : Llm) (k : Nat) :
    News × Nat :=
  if news.content.length > 300 then
    let r := GenerateSummaryUseCase.execute maxLength news llm k
    (if r.1.success then { news with content := r.1.summary } else news, r.2)
  else (news, k)

/-- The per-item loop of `CurateNewsUseCase.execute`: in input order, items
with no rejection reasons are processed by `processOne` and appended to the
approved list; items with reasons are appended to the rejected list with
those reasons and no LLM call. Returns the approved list, the rejected list,
and the next call index. -/
def curateGo (threshold : ℚ) (maxLength : Nat) :
    List News → Llm → Nat → List News × List RejectedNews × Nat
  | [], _, k => ([], [], k)
  | news :: rest, llm, k =>
      let reasons := evaluateNews threshold news
      if reasons.isEmpty then
        let p := processOne maxLength news llm k
        let r := curateGo threshold maxLength rest llm p.2
        (p.1 :: r.1, r.2.1, r.2.2)
      else
        let r := curateGo threshold maxLength rest llm k
        (r.1, { news := news, reasons := reasons } :: r.2.1, r.2.2)

/-- `CurateNewsUseCase.execute`: runs the loop and assembles the
`CurationResult`. `threshold` embeds `env.RELEVANCE_SCORE_THRESHOLD`
(default 0.7) and `maxLength` embeds `env.SUMMARY_MAX_LENGTH` (default 180);
the 300-character summarization trigger is hard-coded in the source. -/
def CurateNewsUseCase.execute (threshold : ℚ) (maxLength : Nat)
    (newsArray : List News) (llm : Llm) (k : Nat) : CurationResult × Nat :=
  let r := curateGo threshold maxLength newsArray llm k
  ({ approvedNews := r.1
     rejectedNews := r.2.1
     totalProcessed := newsArray.length
     totalApproved := r.1.length
     totalRejected := r.2.1.length }, r.2.2)

/-- Forgets the `content` field; processing an approved item can only change
`content`, so this projection exposes the positional correspondence between
approved outcomes and accepted inputs. -/
def eraseContent (n : News) : News :=
  { n with content := "" }

/-- Fixture: an item failing the score rule only (scenario of §8). -/
def lowScoreItem : News :=
  { title := "t1", content := "short", source := "s", categories := ["c"],
    summary := none, relevanceScore := mkRat 1 2, language := "EN" }

/-- Fixture: an item failing the language rule only (scenario of §8). -/
def frenchItem : News :=
  { title := "t2", content := "short", source := "s", categories := ["c"],
    summary := none, relevanceScore := mkRat 4 5, language := "FR" }

/-- Fixture: an item failing both rules. -/
def doubleRejectItem : News :=
  { title := "t3", content := "short", source := "s", categories := ["c"],
    summary := none, relevanceScore := mkRat 1 2, language := "FR" }

/-- Fixture: an accepted item with short content. -/
def shortOkItem : News :=
  { title := "t4", content := "short", source := "s", categories := ["c"],
    summary := none, relevanceScore := mkRat 9 10, language := "ptBR" }

/-- Fixture: an accepted item with 500-character content. -/
def longOkItem : News :=
  { title := "t5", content := ⟨List.replicate 500 'a'⟩, source := "s",
    categories := ["c"], summary := none, relevanceScore := mkRat 9 10,
    language := "EN" }

/-- Fixture: an oracle that always answers with a fixed short text. -/
def okLlm : Llm := fun _ => .ok "resumo"

/-- Fixture: a second stub, written differently but answering exactly like
`okLlm` on every call. -/
def okLlmAgain : Llm := fun _ => .ok ("res" ++ "umo")

/-- Fixture: an oracle that always throws. -/
def failLlm : Llm := fun _ => .error "quota exceeded"

/-- Fixture: an oracle whose first answer has 250 characters and whose
corrective answer has 200 characters, both longer than `maxLength = 180`. -/
def oversizedLlm : Llm := fun i =>
  if i = 0 then .ok ⟨List.replicate 250 'a'⟩ else .ok ⟨List.replicate 200 'b'⟩

/-! ### Helper lemmas -/

lemma evaluateNews_eq_nil_iff (t : ℚ) (n : News) :
    evaluateNews t n = [] ↔
      ¬ n.relevanceScore < t ∧ (n.language = "ptBR" ∨ n.language = "EN") := by
  unfold evaluateNews
  by_cases h1 : n.relevanceScore < t <;>
    by_cases h2 : n.language ≠ "ptBR" ∧ n.language ≠ "EN" <;>
      simp [h1, h2] <;> tauto

lemma eraseContent_processOne (ml : Nat) (n : News) (llm : Llm) (k : Nat) :
    eraseContent (processOne ml n llm k).1 = eraseContent n := by
  unfold processOne
  split
  · dsimp only
    split <;> rfl
  · rfl

lemma summary_processOne (ml : Nat) (n : News) (llm : Llm) (k : Nat) :
    (processOne ml n llm k).1.summary = n.summary := by
  unfold processOne
  split
  · dsimp only
    split <;> rfl
  · rfl

lemma curateGo_partition (t : ℚ) (ml : Nat) (xs : List News) (llm : Llm)
    (k : Nat) :
    (curateGo t ml xs llm k).1.map eraseContent
        = (xs.filter fun n => (evaluateNews t n).isEmpty).map eraseContent
      ∧ (curateGo t ml xs llm k).2.1
        = (xs.filter fun n => !(evaluateNews t n).isEmpty).map
            fun n => { news := n, reasons := evaluateNews t n } := by
  induction xs generalizing k with
  | nil => simp [curateGo]
  | cons n rest ih =>
      by_cases h : (evaluateNews t n).isEmpty
      · simpa [curateGo, h, eraseContent_processOne] using ih _
      · simpa [curateGo, h] using ih _

lemma curateGo_length (t : ℚ) (ml : Nat) (xs : List News) (llm : Llm)
    (k : Nat) :
    (curateGo t ml xs llm k).1.length + (curateGo t ml xs llm k).2.1.length
      = xs.length := by
  induction xs generalizing k with
  | nil => simp [curateGo]
  | cons n rest ih =>
      by_cases h : (evaluateNews t n).isEmpty
      · have h1 := ih (processOne ml n llm k).2
        simp only [curateGo, h, if_true, List.length_cons]
        omega
      · have h1 := ih k
        simp only [curateGo, h, if_false, List.length_cons, Bool.false_eq_true,
          ite_false]
        omega

lemma generateShorterSummary_snd (ml : Nat) (s : String) (llm : Llm)
    (j : Nat) : (generateShorterSummary ml s llm j).2 = j + 1 := by
  unfold generateShorterSummary
  cases llm j <;> rfl

lemma le_summary_calls (ml : Nat) (n : News) (llm : Llm) (k : Nat) :
    k + 1 ≤ (GenerateSummaryUseCase.execute ml n llm k).2 := by
  unfold GenerateSummaryUseCase.execute
  cases h : llm k with
  | error msg => simp
  | ok raw =>
      dsimp only
      split
      · simp [generateShorterSummary_snd]
      · simp

lemma curateGo_singleton_rejected (t : ℚ) (ml : Nat) (n : News) (llm : Llm)
    (k : Nat) (h : evaluateNews t n ≠ []) :
    curateGo t ml [n] llm k
      = ([], [{ news := n, reasons := evaluateNews t n }], k) := by
  have hb : (evaluateNews t n).isEmpty = false := by
    simpa [List.isEmpty_iff] using h
  simp [curateGo, hb]

lemma curateGo_singleton_accepted (t : ℚ) (ml : Nat) (n : News) (llm : Llm)
    (k : Nat) (h : evaluateNews t n = []) :
    curateGo t ml [n] llm k
      = ([(processOne ml n llm k).1], [], (processOne ml n llm k).2) := by
  simp [curateGo, h]

lemma curateGo_short (t : ℚ) (ml : Nat) (xs : List News) (llm : Llm) (k : Nat)
    (h : ∀ m ∈ xs, m.content.length ≤ 300) :
    curateGo t ml xs llm k
      = (xs.filter fun m => (evaluateNews t m).isEmpty,
         (xs.filter fun m => !(evaluateNews t m).isEmpty).map
           fun m => { news := m, reasons := evaluateNews t m }, k) := by
  induction xs with
  | nil => simp [curateGo]
  | cons m rest ih =>
      have hm : m.content.length ≤ 300 := h m (by simp)
      have hrest : ∀ x ∈ rest, x.content.length ≤ 300 :=
        fun x hx => h x (by simp [hx])
      have hp : processOne ml m llm k = (m, k) := by
        unfold processOne
        have : ¬ m.content.length > 300 := by omega
        simp [this]
      by_cases he : (evaluateNews t m).isEmpty
      · simp [curateGo, he, hp, ih hrest]
      · simp [curateGo, he, ih hrest]

/-! ### Claim theorems -/

/-- C6: for every batch, including the empty one, the report satisfies
`totalProcessed = totalApproved + totalRejected
  = |approvedNews| + |rejectedNews|`, with `totalProcessed` the input
length. -/
theorem curation_report_totals (t : ℚ) (ml : Nat) (xs : List News)
    (llm : Llm) (k : Nat) :
    let r := (CurateNewsUseCase.execute t ml xs llm k).1
    r.totalProcessed = r.totalApproved + r.totalRejected
      ∧ r.totalApproved = r.approvedNews.length
      ∧ r.totalRejected = r.rejectedNews.length
      ∧ r.totalProcessed = xs.length :=
  ⟨(curateGo_length t ml xs llm k).symm, rfl, rfl, rfl⟩

/-- C8: outcomes keep the input order — `approvedNews` is positionally the
accepted inputs in input order (each differing at most in `content`), and
`rejectedNews` is exactly the rejected inputs in input order, each paired
with its reasons. -/
theorem curation_preserves_order (t : ℚ) (ml : Nat) (xs : List News)
    (llm : Llm) (k : Nat) :
    (CurateNewsUseCase.execute t ml xs llm k).1.approvedNews.map eraseContent
        = (xs.filter fun n => (evaluateNews t n).isEmpty).map eraseContent
      ∧ (CurateNewsUseCase.execute t ml xs llm k).1.rejectedNews
        = (xs.filter fun n => !(evaluateNews t n).isEmpty).map
            fun n => { news := n, reasons := evaluateNews t n } :=
  curateGo_partition t ml xs llm k

/-- C10: curation never writes the optional `summary` field — in every
outcome, approved or rejected, the emitted item's `summary` equals the
corresponding input item's `summary`; a generated summary only ever replaces
`content`. -/
theorem curation_preserves_summary_field (t : ℚ) (ml : Nat) (xs : List News)
    (llm : Llm) (k : Nat) :
    (CurateNewsUseCase.execute t ml xs llm k).1.approvedNews.map News.summary
        = (xs.filter fun n => (evaluateNews t n).isEmpty).map News.summary
      ∧ (CurateNewsUseCase.execute t ml xs llm k).1.rejectedNews.map
            (fun r => r.news.summary)
        = (xs.filter fun n => !(evaluateNews t n).isEmpty).map
            News.summary := by
  obtain ⟨h1, h2⟩ := curateGo_partition t ml xs llm k
  constructor
  · have h3 := congrArg (List.map News.summary) h1
    simpa [List.map_map, Function.comp, eraseContent] using h3
  · have h3 := congrArg (List.map fun r : RejectedNews => r.news.summary) h2
    simpa [List.map_map, Function.comp] using h3

/-- C9: the curation result is a function of the input sequence and the
capability's responses only — two runs over the same inputs with
extensionally equal (deterministic) capability stubs yield identical
reports. -/
theorem curation_deterministic (t : ℚ) (ml : Nat) (xs : List News)
    (llm₁ llm₂ : Llm) (k : Nat) (h : ∀ i, llm₁ i = llm₂ i) :
    CurateNewsUseCase.execute t ml xs llm₁ k
      = CurateNewsUseCase.execute t ml xs llm₂ k := by
  have h2 : llm₁ = llm₂ := funext h
  rw [h2]

/-- C1: an item is rejected iff its score is below the threshold or its
language is not exactly `"ptBR"`/`"EN"` (case-sensitive); the two rules are
evaluated independently and their reasons accumulate into one Rejected
outcome; and a rejected item causes no generation call (the call counter is
unchanged). -/
theorem curation_rejects_iff (t : ℚ) (ml : Nat) (n : News) (llm : Llm)
    (k : Nat) :
    (evaluateNews t n ≠ [] ↔
        n.relevanceScore < t ∨ (n.language ≠ "ptBR" ∧ n.language ≠ "EN"))
      ∧ (n.relevanceScore < t → n.language ≠ "ptBR" ∧ n.language ≠ "EN" →
          evaluateNews t n =
            ["Score insuficiente (" ++ fmtScore n.relevanceScore ++ " < " ++
                fmtScore t ++ ")",
              "Idioma não suportado (" ++ n.language ++ ")"])
      ∧ (evaluateNews t n ≠ [] →
          CurateNewsUseCase.execute t ml [n] llm k =
            ({ approvedNews := [],
               rejectedNews := [{ news := n, reasons := evaluateNews t n }],
               totalProcessed := 1, totalApproved := 0, totalRejected := 1 },
             k)) := by
  refine ⟨?_, ?_, ?_⟩
  · rw [ne_eq, evaluateNews_eq_nil_iff]
    tauto
  · intro h1 h2
    unfold evaluateNews
    simp [h1, h2]
  · intro h
    simp [CurateNewsUseCase.execute,
      curateGo_singleton_rejected t ml n llm k h]

/-- Witness for C1 at an item failing both rules. -/
theorem curation_rejects_iff_witness :
    evaluateNews (mkRat 7 10) doubleRejectItem =
        ["Score insuficiente (0.5 < 0.7)", "Idioma não suportado (FR)"]
      ∧ CurateNewsUseCase.execute (mkRat 7 10) 180 [doubleRejectItem] okLlm 5 =
          ({ approvedNews := [],
             rejectedNews :=
               [{ news := doubleRejectItem,
                  reasons := evaluateNews (mkRat 7 10) doubleRejectItem }],
             totalProcessed := 1, totalApproved := 0, totalRejected := 1 },
           5) := by
  constructor
  · exact ((curation_rejects_iff (mkRat 7 10) 180 doubleRejectItem okLlm
      5).2.1 (by decide) (by decide)).trans (by decide)
  · exact (curation_rejects_iff (mkRat 7 10) 180 doubleRejectItem okLlm
      5).2.2 (by decide)

/-- C2: an accepted item whose content has at most 300 characters passes
through unchanged with zero generation calls; an accepted item whose content
exceeds 300 characters triggers at least one generation call; and a whole
batch of short-content items makes zero generation calls while its approved
list is exactly the accepted inputs, unchanged. -/
theorem curation_short_content (t : ℚ) (ml : Nat) (n : News) (llm : Llm)
    (k : Nat) (hacc : evaluateNews t n = []) :
    (n.content.length ≤ 300 →
        CurateNewsUseCase.execute t ml [n] llm k =
          ({ approvedNews := [n], rejectedNews := [], totalProcessed := 1,
             totalApproved := 1, totalRejected := 0 }, k))
      ∧ (300 < n.content.length →
          k + 1 ≤ (CurateNewsUseCase.execute t ml [n] llm k).2)
      ∧ (∀ xs : List News, (∀ m ∈ xs, m.content.length ≤ 300) →
          (CurateNewsUseCase.execute t ml xs llm k).2 = k
            ∧ (CurateNewsUseCase.execute t ml xs llm k).1.approvedNews
              = xs.filter fun m => (evaluateNews t m).isEmpty) := by
  refine ⟨?_, ?_, ?_⟩
  · intro hshort
    have hp : processOne ml n llm k = (n, k) := by
      unfold processOne
      have h2 : ¬ n.content.length > 300 := by omega
      simp [h2]
    simp [CurateNewsUseCase.execute,
      curateGo_singleton_accepted t ml n llm k hacc, hp]
  · intro hlong
    have hp : (processOne ml n llm k).2
        = (GenerateSummaryUseCase.execute ml n llm k).2 := by
      unfold processOne
      simp [hlong]
    have h2 := le_summary_calls ml n llm k
    simp [CurateNewsUseCase.execute,
      curateGo_singleton_accepted t ml n llm k hacc, hp]
    omega
  · intro xs hall
    simp [CurateNewsUseCase.execute, curateGo_short t ml xs llm k hall]

/-- Witness for C2 at an accepted short-content item. -/
theorem curation_short_content_witness :
    CurateNewsUseCase.execute (mkRat 7 10) 180 [shortOkItem] okLlm 0 =
      ({ approvedNews := [shortOkItem], rejectedNews := [],
         totalProcessed := 1, totalApproved := 1, totalRejected := 0 }, 0) :=
  (curation_short_content (mkRat 7 10) 180 shortOkItem okLlm 0
    (by decide)).1 (by decide)

/-- C4: when the first generation call throws, the summarize result has
`success = false`, an empty summary, the error message recorded, and summary
metadata zeroed; the curation engine still approves the (accepted,
long-content) item with its original content. All embedded functions are
total, reflecting that the core catches every per-item generation failure
and never propagates an exception. -/
theorem generation_failure_recovered (t : ℚ) (ml : Nat) (n : News)
    (llm : Llm) (k : Nat) (msg : String) (hfail : llm k = .error msg)
    (hacc : evaluateNews t n = []) (hlong : 300 < n.content.length) :
    GenerateSummaryUseCase.execute ml n llm k =
        ({ summary := "", originalNews := n, success := false,
           error := some msg,
           metadata := some
             { originalLength := n.content.length, summaryLength := 0,
               compressionRatio := 0 } }, k + 1)
      ∧ CurateNewsUseCase.execute t ml [n] llm k =
          ({ approvedNews := [n], rejectedNews := [], totalProcessed := 1,
             totalApproved := 1, totalRejected := 0 }, k + 1) := by
  have hexec : GenerateSummaryUseCase.execute ml n llm k =
      ({ summary := "", originalNews := n, success := false,
         error := some msg,
         metadata := some
           { originalLength := n.content.length, summaryLength := 0,
             compressionRatio := 0 } }, k + 1) := by
    unfold GenerateSummaryUseCase.execute
    rw [hfail]
  refine ⟨hexec, ?_⟩
  have hp : processOne ml n llm k = (n, k + 1) := by
    unfold processOne
    simp [hlong, hexec]
  simp [CurateNewsUseCase.execute,
    curateGo_singleton_accepted t ml n llm k hacc, hp]

/-- Witness for C4 at an accepted 500-character item with a throwing
capability. -/
theorem generation_failure_recovered_witness :
    GenerateSummaryUseCase.execute 180 longOkItem failLlm 0 =
        ({ summary := "", originalNews := longOkItem, success := false,
           error := some "quota exceeded",
           metadata := some
             { originalLength := longOkItem.content.length,
               summaryLength := 0, compressionRatio := 0 } }, 1)
      ∧ CurateNewsUseCase.execute (mkRat 7 10) 180 [longOkItem] failLlm 0 =
          ({ approvedNews := [longOkItem], rejectedNews := [],
             totalProcessed := 1, totalApproved := 1, totalRejected := 0 },
           1) :=
  generation_failure_recovered (mkRat 7 10) 180 longOkItem failLlm 0
    "quota exceeded" rfl (by decide) (by decide)

/-- C5: for an accepted long-content item whose summary generation succeeds,
the approved outcome's `content` is the generated summary while `title`,
`source`, `categories`, `summary`, `relevanceScore` and `language` all equal
the input item's fields. -/
theorem approved_summary_replaces_content (t : ℚ) (ml : Nat) (n : News)
    (llm : Llm) (k : Nat) (hacc : evaluateNews t n = [])
    (hlong : 300 < n.content.length)
    (hsucc : (GenerateSummaryUseCase.execute ml n llm k).1.success = true) :
    (CurateNewsUseCase.execute t ml [n] llm k).1.approvedNews =
      [{ title := n.title,
         content := (GenerateSummaryUseCase.execute ml n llm k).1.summary,
         source := n.source, categories := n.categories,
         summary := n.summary, relevanceScore := n.relevanceScore,
         language := n.language }] := by
  have hp : (processOne ml n llm k).1 =
      { n with content := (GenerateSummaryUseCase.execute ml n llm k).1.summary } := by
    unfold processOne
    simp [hlong, hsucc]
  simp [CurateNewsUseCase.execute,
    curateGo_singleton_accepted t ml n llm k hacc, hp]

/-- Witness for C5 at an accepted 500-character item with a succeeding
capability. -/
theorem approved_summary_replaces_content_witness :
    (CurateNewsUseCase.execute (mkRat 7 10) 180 [longOkItem] okLlm 0
        ).1.approvedNews =
      [{ title := longOkItem.title,
         content := (GenerateSummaryUseCase.execute 180 longOkItem okLlm 0
           ).1.summary,
         source := longOkItem.source, categories := longOkItem.categories,
         summary := longOkItem.summary,
         relevanceScore := longOkItem.relevanceScore,
         language := longOkItem.language }] :=
  approved_summary_replaces_content (mkRat 7 10) 180 longOkItem okLlm 0
    (by decide) (by decide) (by decide)

lemma trunc_length (x : String) (m : Nat) :
    (jsSubstring x m ++ "...").length = min m x.length + 3 := by
  rw [String.length_append, show ("..." : String).length = 3 from rfl]
  show (x.data.take m).length + 3 = min m x.data.length + 3
  rw [List.length_take]

/-- C3 (amended): when the first call's trimmed output exceeds `maxLength`
exactly one corrective call is issued and never a third; when the corrective
answer is also oversized after trimming — or the corrective call throws,
which the hypothesis covers vacuously — the final summary is the first
trimmed output hard-truncated to `maxLength - 3` characters with `"..."`
appended, its length is exactly `maxLength`, it ends with `"..."` by
construction, the part before the appended ellipsis (not the full summary)
is a prefix of the first call's trimmed output, and `success` is `true`. -/
theorem summary_truncation (ml : Nat) (n : News) (llm : Llm) (k : Nat)
    (s : String) (h3 : 3 ≤ ml) (h0 : llm k = .ok s)
    (hlong : ml < (jsTrim s).length)
    (hbad : ∀ s₂, llm (k + 1) = .ok s₂ → ml < (jsTrim s₂).length) :
    (GenerateSummaryUseCase.execute ml n llm k).2 = k + 2
      ∧ (GenerateSummaryUseCase.execute ml n llm k).1.success = true
      ∧ (GenerateSummaryUseCase.execute ml n llm k).1.summary
        = jsSubstring (jsTrim s) (ml - 3) ++ "..."
      ∧ (GenerateSummaryUseCase.execute ml n llm k).1.summary.length = ml
      ∧ (jsSubstring (jsTrim s) (ml - 3)).data <+: (jsTrim s).data := by
  have key : GenerateSummaryUseCase.execute ml n llm k =
      (createResult n (jsSubstring (jsTrim s) (ml - 3) ++ "...") true,
       k + 2) := by
    unfold GenerateSummaryUseCase.execute
    rw [h0]
    dsimp only
    rw [if_pos hlong]
    cases hc : llm (k + 1) with
    | ok s₂ =>
        have hb := hbad s₂ hc
        have hg : generateShorterSummary ml (jsTrim s) llm (k + 1)
            = (jsTrim s₂, k + 2) := by
          unfold generateShorterSummary
          rw [hc]
        simp [hg, show ¬ (jsTrim s₂).length ≤ ml by omega]
    | error e =>
        have hg : generateShorterSummary ml (jsTrim s) llm (k + 1)
            = (jsSubstring (jsTrim s) (ml - 3) ++ "...", k + 2) := by
          unfold generateShorterSummary
          rw [hc]
        have hlen : (jsSubstring (jsTrim s) (ml - 3) ++ "...").length = ml := by
          rw [trunc_length]
          omega
        simp [hg, show (jsSubstring (jsTrim s) (ml - 3) ++ "...").length ≤ ml
          by omega]
  refine ⟨by rw [key], by rw [key]; rfl, by rw [key]; rfl, ?_, ?_⟩
  · rw [key]
    show (jsSubstring (jsTrim s) (ml - 3) ++ "...").length = ml
    rw [trunc_length]
    omega
  · exact List.take_prefix _ _

/-- Witness for C3 (amended) with `maxLength = 180`, a 250-character first
answer and a 200-character corrective answer. -/
theorem summary_truncation_witness :
    (GenerateSummaryUseCase.execute 180 longOkItem oversizedLlm 0).2 = 0 + 2
      ∧ (GenerateSummaryUseCase.execute 180 longOkItem oversizedLlm
          0).1.success = true
      ∧ (GenerateSummaryUseCase.execute 180 longOkItem oversizedLlm
          0).1.summary
        = jsSubstring (jsTrim ⟨List.replicate 250 'a'⟩) (180 - 3) ++ "..."
      ∧ (GenerateSummaryUseCase.execute 180 longOkItem oversizedLlm
          0).1.summary.length = 180
      ∧ (jsSubstring (jsTrim ⟨List.replicate 250 'a'⟩) (180 - 3)).data
          <+: (jsTrim ⟨List.replicate 250 'a'⟩).data :=
  summary_truncation 180 longOkItem oversizedLlm 0 ⟨List.replicate 250 'a'⟩
    (by decide) rfl (by decide)
    (by
      intro s₂ hs
      have h2 : (⟨List.replicate 200 'b'⟩ : String) = s₂ := by
        simpa [oversizedLlm] using hs
      rw [← h2]
      decide)

/-- C3 counterexample: with both answers oversized the final summary ends in
the appended `"..."`, so the full summary is not itself a prefix of the
first call's trimmed output, contradicting the claim's prefix clause; and at
the degenerate configuration `maxLength = 2 < 3` the final summary is the
bare ellipsis of length 3, contradicting the claim's exact-length clause. -/
theorem summary_truncation_cex :
    oversizedLlm 0 = Except.ok ⟨List.replicate 250 'a'⟩
      ∧ 180 < (jsTrim ⟨List.replicate 250 'a'⟩).length
      ∧ oversizedLlm 1 = Except.ok ⟨List.replicate 200 'b'⟩
      ∧ 180 < (jsTrim ⟨List.replicate 200 'b'⟩).length
      ∧ (GenerateSummaryUseCase.execute 180 longOkItem oversizedLlm
          0).1.success = true
      ∧ (GenerateSummaryUseCase.execute 180 longOkItem oversizedLlm
          0).1.summary.length = 180
      ∧ ¬ (GenerateSummaryUseCase.execute 180 longOkItem oversizedLlm
            0).1.summary.data
          <+: (jsTrim ⟨List.replicate 250 'a'⟩).data
      ∧ (GenerateSummaryUseCase.execute 2 longOkItem oversizedLlm
          0).1.summary = "..."
      ∧ (GenerateSummaryUseCase.execute 2 longOkItem oversizedLlm
          0).1.summary.length ≠ 2 := by
  exact ⟨rfl, by decide, rfl, by decide, by decide, by decide, by decide,
    by decide, by decide⟩

/-- C7 (amended): with threshold 0.7, the score-0.5/`"EN"` item is rejected
with exactly the one reason `"Score insuficiente (0.5 < 0.7)"` and the
score-0.8/`"FR"` item with exactly the one reason
`"Idioma não suportado (FR)"` — the code renders its reason strings in
Portuguese with these exact formats. -/
theorem evaluateNews_reason_strings :
    evaluateNews (mkRat 7 10) lowScoreItem
        = ["Score insuficiente (0.5 < 0.7)"]
      ∧ evaluateNews (mkRat 7 10) frenchItem
        = ["Idioma não suportado (FR)"] := by
  decide

/-- C7 counterexample: the reasons produced are the Portuguese strings, not
the claimed English `"insufficient score (0.5 < 0.7)"` /
`"unsupported language (FR)"`. -/
theorem evaluateNews_reason_strings_cex :
    evaluateNews (mkRat 7 10) lowScoreItem
        ≠ ["insufficient score (0.5 < 0.7)"]
      ∧ evaluateNews (mkRat 7 10) frenchItem
        ≠ ["unsupported language (FR)"]
      ∧ evaluateNews (mkRat 7 10) lowScoreItem
        = ["Score insuficiente (0.5 < 0.7)"]
      ∧ evaluateNews (mkRat 7 10) frenchItem
        = ["Idioma não suportado (FR)"] := by
  decide

/-- Witness for C9: two runs over the same two-item batch with two
deterministic stubs that agree on every call produce identical reports. -/
theorem curation_deterministic_witness :
    CurateNewsUseCase.execute (mkRat 7 10) 180 [longOkItem, lowScoreItem]
        okLlm 0
      = CurateNewsUseCase.execute (mkRat 7 10) 180 [longOkItem, lowScoreItem]
          okLlmAgain 0 :=
  curation_deterministic (mkRat 7 10) 180 [longOkItem, lowScoreItem]
    okLlm okLlmAgain 0 (fun _ => rfl)
